import Mathlib

/-!
Verification development for the olapy cube-configuration loader
(src/olapy/core/mdx/tools/config_file_parser.py).

The loader reads a YAML document describing a star-schema OLAP cube and
materialises descriptor objects (Cube, Facts, Dimension).  The embedding
below models the parsed YAML document as an inductive value type, the
filesystem as a partial map from path strings to parsed documents, and
the loader as an Except-valued function that mirrors the Python code
statement by statement, including Python truthiness on optional path
arguments, KeyError-style failures on missing mapping keys, and the
insertion-order / last-value-wins semantics of Python dict and
OrderedDict construction.
-/

namespace Olapy

/-- Parsed YAML document node, as produced by yaml.load: scalars are
strings or booleans, sequences are lists, mappings are key/value lists
with string keys (parser output has unique keys). -/
inductive Yaml where
  | str : String → Yaml
  | boolv : Bool → Yaml
  | arr : List Yaml → Yaml
  | map : List (String × Yaml) → Yaml

/-- Python equality between dict keys.  Keys of a Python dict must be
hashable, so only scalar nodes ever serve as keys in a loaded document;
scalars of distinct kinds compare unequal (non-scalar nodes never occur
as keys and are treated as unequal to everything). -/
def yamlKeyEq (a b : Yaml) : Bool :=
  match a, b with
  | Yaml.str x, Yaml.str y => decide (x = y)
  | Yaml.boolv x, Yaml.boolv y => decide (x = y)
  | _, _ => false

/-- Failure taxonomy of the loader.  keyError field models Python's
KeyError raised by a subscript on a mapping lacking the field (it cites
the missing field); typeError models subscripting or iterating a node of
the wrong kind; notFound path models the IOError raised by open() on a
missing file. -/
inductive ConfigError where
  | notFound : String → ConfigError
  | keyError : String → ConfigError
  | typeError : ConfigError
deriving DecidableEq, Repr

/-- A ConfigFormatError in the spec's taxonomy: a structurally invalid
document (missing required field or wrong node kind). -/
def isConfigFormatError : ConfigError → Bool
  | ConfigError.keyError _ => true
  | ConfigError.typeError => true
  | ConfigError.notFound _ => false

/-- A ConfigNotFoundError in the spec's taxonomy: the file is missing. -/
def isConfigNotFoundError : ConfigError → Bool
  | ConfigError.notFound _ => true
  | _ => false

/-- Does the error cite the given missing field, as KeyError does. -/
def errorCitesField (e : ConfigError) (f : String) : Bool :=
  match e with
  | ConfigError.keyError g => decide (g = f)
  | _ => false

/-- First-match lookup in a string-keyed association list (mapping
access on a parsed document node). -/
def lookupKey {β : Type} (m : List (String × β)) (k : String) : Option β :=
  match m with
  | [] => none
  | p :: rest => if p.1 = k then some p.2 else lookupKey rest k

/-- Python dict item insertion: assigning to an existing key keeps its
position and replaces the value, a fresh key is appended at the end. -/
def dictInsert (d : List (Yaml × Yaml)) (k : Yaml) (v : Yaml) :
    List (Yaml × Yaml) :=
  if d.any (fun p => yamlKeyEq p.1 k) then
    d.map (fun p => if yamlKeyEq p.1 k then (p.1, v) else p)
  else d ++ [(k, v)]

/-- Python dict / OrderedDict built from a sequence of key/value pairs:
items are inserted left to right with dictInsert semantics. -/
def pythonDict (ps : List (Yaml × Yaml)) : List (Yaml × Yaml) :=
  ps.foldl (fun d p => dictInsert d p.1 p.2) []

/-- Subscript access on a document node, as in config[k]: a mapping
without the key raises KeyError citing the key; subscripting a
non-mapping node is a type error. -/
def getItem (y : Yaml) (k : String) : Except ConfigError Yaml :=
  match y with
  | Yaml.map m =>
    match lookupKey m k with
    | some v => Except.ok v
    | none => Except.error (ConfigError.keyError k)
  | _ => Except.error ConfigError.typeError

/-- Membership test k in y on a mapping node, as in 'columns' in d. -/
def hasKey (y : Yaml) (k : String) : Bool :=
  match y with
  | Yaml.map m => m.any (fun p => decide (p.1 = k))
  | _ => false

/-- Iteration over a document node; modelled for sequence nodes, which
is the only node kind the loader iterates on well-formed documents. -/
def toIter (y : Yaml) : Except ConfigError (List Yaml) :=
  match y with
  | Yaml.arr l => Except.ok l
  | _ => Except.error ConfigError.typeError

/-- Python bool() truthiness on a document node. -/
def pyBool : Yaml → Bool
  | Yaml.str s => decide (s ≠ "")
  | Yaml.boolv b => b
  | Yaml.arr l => !l.isEmpty
  | Yaml.map m => !m.isEmpty

/-- Modelled from the spec: the Facts descriptor class (models.py is not
part of the given fragment).  A plain record: fact table name, the keys
mapping from fact-table column name to table.column reference, and the
declared measures node, stored verbatim. -/
structure Facts where
  table_name : Yaml
  keys : List (Yaml × Yaml)
  measures : Yaml

/-- Modelled from the spec: the Dimension descriptor class (models.py is
not part of the given fragment).  A plain record: dimension name,
display name, and the ordered columns mapping from source column name to
display name. -/
structure Dimension where
  name : Yaml
  displayName : Yaml
  columns : List (Yaml × Yaml)

/-- Modelled from the spec: the Cube descriptor class (models.py is not
part of the given fragment).  A plain record holding the authentication
flag, cube name, source kind, facts sequence and dimensions sequence. -/
structure Cube where
  xmla_authentication : Bool
  name : Yaml
  source : Yaml
  facts : List Facts
  dimensions : List Dimension

/-- The ConfigParser instance state: just the resolved default path. -/
structure ConfigParser where
  cube_config_file : String
deriving DecidableEq, Repr

/-- The fixed relative path components appended to the base directory. -/
def olapyDataRel : List String := ["olapy-data", "cubes", "cubes-config.yml"]

/-- POSIX os.path.join of a base and one further component: an absolute
component replaces the result so far; otherwise the component is
appended, inserting a slash unless the base is empty or already ends
with one. -/
def joinTwo (a b : String) : String :=
  if b.data.head? = some '/' then b
  else if a = "" ∨ a.data.getLast? = some '/' then a ++ b
  else a ++ "/" ++ b

/-- POSIX os.path.join of a base and a list of components. -/
def osPathJoin (a : String) (ps : List String) : String :=
  ps.foldl joinTwo a

/-- ConfigParser._get_cube_path: base directory is the OLAPY_PATH
environment value when the variable is set (even to the empty string),
else the expanded home directory; the fixed relative path is joined on. -/
def getCubePath (env : Option String) (home : String) : String :=
  osPathJoin (match env with | some v => v | none => home) olapyDataRel

/-- ConfigParser.__init__: a truthy cube_config_file argument (a
non-empty string) is stored verbatim; None or the empty string falls
back to _get_cube_path. -/
def mkConfigParser (cube_config_file : Option String) (env : Option String)
    (home : String) : ConfigParser :=
  match cube_config_file with
  | some p => if p = "" then { cube_config_file := getCubePath env home }
              else { cube_config_file := p }
  | none => { cube_config_file := getCubePath env home }

/-- ConfigParser.config_file_exists: os.path.isfile on the stored path,
against a filesystem modelled as a partial map from paths to parsed
documents. -/
def config_file_exists (fs : String → Option Yaml) (parser : ConfigParser) : Bool :=
  (fs parser.cube_config_file).isSome

/-- Writing a document to a path in the modelled filesystem. -/
def fsWrite (fs : String → Option Yaml) (p : String) (doc : Yaml) :
    String → Option Yaml :=
  fun q => if q = p then some doc else fs q

/-- Path resolution at the top of get_cube_config: a truthy conf_file
argument overrides the instance path for this call only. -/
def resolveFilePath (parser : ConfigParser) (conf_file : Option String) : String :=
  match conf_file with
  | some p => if p = "" then parser.cube_config_file else p
  | none => parser.cube_config_file

/-- One entry of the OrderedDict generator for a dimension's columns:
the pair (column['name'], column['name'] if 'column_new_name' not in
column else column['column_new_name']). -/
def parseColumn (column : Yaml) : Except ConfigError (Yaml × Yaml) := do
  let n ← getItem column "name"
  let v ← if hasKey column "column_new_name" then getItem column "column_new_name"
          else pure n
  pure (n, v)

/-- One element of the dimensions list comprehension: Dimension(name=...,
displayName=..., columns=OrderedDict(...) if 'columns' in
dimension['dimension'] else empty). -/
def parseDimension (dimension : Yaml) : Except ConfigError Dimension := do
  let name ← getItem (← getItem dimension "dimension") "name"
  let displayName ← getItem (← getItem dimension "dimension") "displayName"
  let columns ←
    if hasKey (← getItem dimension "dimension") "columns" then do
      let cols ← toIter (← getItem (← getItem dimension "dimension") "columns")
      let pairs ← cols.mapM parseColumn
      pure (pythonDict pairs)
    else
      pure ([] : List (Yaml × Yaml))
  pure { name := name, displayName := displayName, columns := columns }

/-- ConfigParser.get_cube_config: resolve the path, read and parse the
file (notFound when absent), then extract the facts entry with its keys
mapping dict(zip(columns_names, refs)) and measures, the dimensions
list, and the top-level fields, in the evaluation order of the Python
source. -/
def get_cube_config (fs : String → Option Yaml) (parser : ConfigParser)
    (conf_file : Option String) : Except ConfigError Cube :=
  match fs (resolveFilePath parser conf_file) with
  | none => Except.error (ConfigError.notFound (resolveFilePath parser conf_file))
  | some config => do
    let table_name ← getItem (← getItem config "facts") "table_name"
    let columns_names ← toIter
      (← getItem (← getItem (← getItem config "facts") "keys") "columns_names")
    let refs ← toIter
      (← getItem (← getItem (← getItem config "facts") "keys") "refs")
    let measures ← getItem (← getItem config "facts") "measures"
    let facts := [Facts.mk table_name (pythonDict (columns_names.zip refs)) measures]
    let dims ← toIter (← getItem config "dimensions")
    let dimensions ← dims.mapM parseDimension
    let xmla ← getItem config "xmla_authentication"
    let name ← getItem config "name"
    let source ← getItem config "source"
    pure (Cube.mk (pyBool xmla) name source facts dimensions)

/-!
Structured document descriptions and the corresponding YAML builders.
A ColumnSpec, DimSpec, CubeSpec triple describes an arbitrary document
of the documented schema shape; mkCubeYaml renders it as the parsed
document the loader reads, so theorems can quantify over all documents
of that shape.
-/

/-- One declared column of a dimension: its name and, optionally, the
column_new_name rename field. -/
structure ColumnSpec where
  name : String
  column_new_name : Option String
deriving DecidableEq, Repr

/-- One declared dimension: its name, display name, and its declared
columns; none means the columns key is omitted from the document. -/
structure DimSpec where
  name : String
  displayName : String
  columns : Option (List ColumnSpec)
deriving DecidableEq, Repr

/-- A whole document of the documented schema shape. -/
structure CubeSpec where
  xmla_authentication : Bool
  name : String
  source : String
  table_name : String
  columns_names : List String
  refs : List String
  measures : List String
  dimensions : List DimSpec
deriving DecidableEq, Repr

/-- Render a declared column as a document node. -/
def mkColumnYaml (c : ColumnSpec) : Yaml :=
  Yaml.map ([("name", Yaml.str c.name)] ++
    (match c.column_new_name with
     | some r => [("column_new_name", Yaml.str r)]
     | none => []))

/-- Render a declared dimension as a document node. -/
def mkDimYaml (d : DimSpec) : Yaml :=
  Yaml.map [("dimension", Yaml.map
    ([("name", Yaml.str d.name), ("displayName", Yaml.str d.displayName)] ++
     (match d.columns with
      | some cs => [("columns", Yaml.arr (cs.map mkColumnYaml))]
      | none => [])))]

/-- Render the facts section of a document. -/
def mkFactsYaml (s : CubeSpec) : Yaml :=
  Yaml.map [("table_name", Yaml.str s.table_name),
    ("keys", Yaml.map [("columns_names", Yaml.arr (s.columns_names.map Yaml.str)),
                       ("refs", Yaml.arr (s.refs.map Yaml.str))]),
    ("measures", Yaml.arr (s.measures.map Yaml.str))]

/-- Render a whole document of the documented schema shape. -/
def mkCubeYaml (s : CubeSpec) : Yaml :=
  Yaml.map [("xmla_authentication", Yaml.boolv s.xmla_authentication),
    ("name", Yaml.str s.name), ("source", Yaml.str s.source),
    ("facts", mkFactsYaml s),
    ("dimensions", Yaml.arr (s.dimensions.map mkDimYaml))]

/-- Render a document that omits the dimensions section entirely. -/
def mkCubeYamlNoDims (s : CubeSpec) : Yaml :=
  Yaml.map [("xmla_authentication", Yaml.boolv s.xmla_authentication),
    ("name", Yaml.str s.name), ("source", Yaml.str s.source),
    ("facts", mkFactsYaml s)]

/-- Render a document that omits the required top-level name field. -/
def mkCubeYamlNoName (s : CubeSpec) : Yaml :=
  Yaml.map [("xmla_authentication", Yaml.boolv s.xmla_authentication),
    ("source", Yaml.str s.source),
    ("facts", mkFactsYaml s),
    ("dimensions", Yaml.arr (s.dimensions.map mkDimYaml))]

/-- Render a document whose facts section omits table_name. -/
def mkCubeYamlNoTable (s : CubeSpec) : Yaml :=
  Yaml.map [("xmla_authentication", Yaml.boolv s.xmla_authentication),
    ("name", Yaml.str s.name), ("source", Yaml.str s.source),
    ("facts", Yaml.map [
      ("keys", Yaml.map [("columns_names", Yaml.arr (s.columns_names.map Yaml.str)),
                         ("refs", Yaml.arr (s.refs.map Yaml.str))]),
      ("measures", Yaml.arr (s.measures.map Yaml.str))]),
    ("dimensions", Yaml.arr (s.dimensions.map mkDimYaml))]

/-- The column-mapping entry the loader produces for a declared column:
the display name is the rename when declared, else the column name. -/
def evalColumn (c : ColumnSpec) : Yaml × Yaml :=
  (Yaml.str c.name, Yaml.str (c.column_new_name.getD c.name))

/-- The Dimension descriptor the loader produces for a declared
dimension. -/
def evalDimSpec (d : DimSpec) : Dimension :=
  { name := Yaml.str d.name, displayName := Yaml.str d.displayName,
    columns := match d.columns with
      | some cs => pythonDict (cs.map evalColumn)
      | none => [] }

/-- The Cube descriptor the loader produces for a whole declared
document. -/
def evalCubeSpec (s : CubeSpec) : Cube :=
  { xmla_authentication := s.xmla_authentication,
    name := Yaml.str s.name, source := Yaml.str s.source,
    facts := [Facts.mk (Yaml.str s.table_name)
                (pythonDict ((s.columns_names.map Yaml.str).zip (s.refs.map Yaml.str)))
                (Yaml.arr (s.measures.map Yaml.str))],
    dimensions := s.dimensions.map evalDimSpec }

/-!
Helper lemmas: inversion of Except binds, Python dict construction on
pairwise-distinct keys, and evaluation of the loader on documents of the
schema shape.
-/

/-- Inversion of a successful Except bind: the first step succeeded. -/
theorem bind_ok_inv {α β ε : Type} {e : Except ε α} {k : α → Except ε β} {b : β}
    (h : e >>= k = Except.ok b) : ∃ a, e = Except.ok a ∧ k a = Except.ok b := by
  cases e with
  | ok a => exact ⟨a, rfl, h⟩
  | error err => exact Except.noConfusion h

/-- Inserting a key fresh for the whole dict appends it at the end. -/
theorem dictInsert_fresh (d : List (Yaml × Yaml)) (p : Yaml × Yaml)
    (hfresh : ∀ q ∈ d, yamlKeyEq q.1 p.1 = false) :
    dictInsert d p.1 p.2 = d ++ [p] := by
  have hcond : d.any (fun q => yamlKeyEq q.1 p.1) = false := by
    rw [List.any_eq_false]
    intro q hq
    simp [hfresh q hq]
  simp [dictInsert, hcond]

/-- Folding dict insertion over pairs whose keys are pairwise distinct
from each other and from the accumulator just appends them in order. -/
theorem foldl_dictInsert (ps : List (Yaml × Yaml)) (acc : List (Yaml × Yaml))
    (h : List.Pairwise (fun p q : Yaml × Yaml => yamlKeyEq p.1 q.1 = false) (acc ++ ps)) :
    ps.foldl (fun d p => dictInsert d p.1 p.2) acc = acc ++ ps := by
  induction ps generalizing acc with
  | nil => simp
  | cons p rest ih =>
    have hfresh : ∀ q ∈ acc, yamlKeyEq q.1 p.1 = false := by
      intro q hq
      exact (List.pairwise_append.mp h).2.2 q hq p (List.mem_cons_self _ _)
    rw [List.append_cons] at h
    simp only [List.foldl_cons]
    rw [dictInsert_fresh acc p hfresh, ih (acc ++ [p]) h]
    simp

/-- A dict built from pairs with pairwise-distinct keys is those pairs
in their original order. -/
theorem pythonDict_pairwise (ps : List (Yaml × Yaml))
    (h : List.Pairwise (fun p q : Yaml × Yaml => yamlKeyEq p.1 q.1 = false) ps) :
    pythonDict ps = ps := by
  have := foldl_dictInsert ps [] (by simpa using h)
  simpa [pythonDict] using this

/-- A dict built from pairs whose keys are the string scalars of a
duplicate-free list of names is those pairs in their original order. -/
theorem pythonDict_eq_self (ps : List (Yaml × Yaml)) (ks : List String)
    (hk : ps.map Prod.fst = ks.map Yaml.str) (hnd : ks.Nodup) :
    pythonDict ps = ps := by
  have h1 : List.Pairwise (fun a b : Yaml => yamlKeyEq a b = false) (ks.map Yaml.str) := by
    rw [List.pairwise_map]
    refine hnd.imp ?_
    intro a b hab
    simp [yamlKeyEq, hab]
  rw [← hk, List.pairwise_map] at h1
  exact pythonDict_pairwise ps h1

/-- The keys of a zip, in order, are the first list truncated to the
second list's length. -/
theorem map_fst_zip_eq_take {α β : Type} (as : List α) (bs : List β) :
    (as.zip bs).map Prod.fst = as.take bs.length := by
  induction as generalizing bs with
  | nil => simp
  | cons a as ih =>
    cases bs with
    | nil => simp
    | cons b bs => simp [List.zip_cons_cons, ih]

/-- Evaluation of the column generator entry on a declared column. -/
theorem parseColumn_mk (c : ColumnSpec) :
    parseColumn (mkColumnYaml c) = Except.ok (evalColumn c) := by
  obtain ⟨n, r⟩ := c
  cases r <;> rfl

/-- Evaluation of the column generator on a declared column list. -/
theorem mapM_parseColumn (cs : List ColumnSpec) :
    List.mapM parseColumn (cs.map mkColumnYaml) = Except.ok (cs.map evalColumn) := by
  induction cs with
  | nil => rfl
  | cons c rest ih => rw [List.map_cons, List.mapM_cons, parseColumn_mk, ih]; rfl

/-- Evaluation of the dimension comprehension body on a declared
dimension. -/
theorem parseDimension_mk (d : DimSpec) :
    parseDimension (mkDimYaml d) = Except.ok (evalDimSpec d) := by
  obtain ⟨n, dn, cols⟩ := d
  cases cols with
  | none => rfl
  | some cs =>
    show (List.mapM parseColumn (cs.map mkColumnYaml)) >>= (fun pairs =>
        Except.ok { name := Yaml.str n, displayName := Yaml.str dn,
                    columns := pythonDict pairs : Dimension }) =
      Except.ok (evalDimSpec { name := n, displayName := dn, columns := some cs })
    rw [mapM_parseColumn]
    rfl

/-- Evaluation of the dimension comprehension on a declared dimension
list. -/
theorem mapM_parseDimension (ds : List DimSpec) :
    List.mapM parseDimension (ds.map mkDimYaml) = Except.ok (ds.map evalDimSpec) := by
  induction ds with
  | nil => rfl
  | cons d rest ih => rw [List.map_cons, List.mapM_cons, parseDimension_mk, ih]; rfl

/-- Evaluation of the loader on any document of the schema shape: it
succeeds and produces exactly the descriptor evalCubeSpec describes. -/
theorem get_cube_config_mk (fs : String → Option Yaml) (parser : ConfigParser)
    (conf_file : Option String) (s : CubeSpec)
    (hfs : fs (resolveFilePath parser conf_file) = some (mkCubeYaml s)) :
    get_cube_config fs parser conf_file = Except.ok (evalCubeSpec s) := by
  unfold get_cube_config
  rw [hfs]
  show (List.mapM parseDimension (s.dimensions.map mkDimYaml)) >>= (fun dimensions =>
      Except.ok (Cube.mk s.xmla_authentication (Yaml.str s.name) (Yaml.str s.source)
        [Facts.mk (Yaml.str s.table_name)
          (pythonDict ((s.columns_names.map Yaml.str).zip (s.refs.map Yaml.str)))
          (Yaml.arr (s.measures.map Yaml.str))] dimensions)) =
    Except.ok (evalCubeSpec s)
  rw [mapM_parseDimension]
  rfl

/-- Evaluation of the loader on a document omitting the dimensions
section: a KeyError citing dimensions. -/
theorem get_cube_config_noDims (fs : String → Option Yaml) (parser : ConfigParser)
    (conf_file : Option String) (s : CubeSpec)
    (hfs : fs (resolveFilePath parser conf_file) = some (mkCubeYamlNoDims s)) :
    get_cube_config fs parser conf_file = Except.error (ConfigError.keyError "dimensions") := by
  unfold get_cube_config
  rw [hfs]
  rfl

/-- Evaluation of the loader on a document omitting the top-level name
field: a KeyError citing name. -/
theorem get_cube_config_noName (fs : String → Option Yaml) (parser : ConfigParser)
    (conf_file : Option String) (s : CubeSpec)
    (hfs : fs (resolveFilePath parser conf_file) = some (mkCubeYamlNoName s)) :
    get_cube_config fs parser conf_file = Except.error (ConfigError.keyError "name") := by
  unfold get_cube_config
  rw [hfs]
  show (List.mapM parseDimension (s.dimensions.map mkDimYaml)) >>= (fun dimensions =>
      Except.error (ConfigError.keyError "name")) =
    Except.error (ConfigError.keyError "name")
  rw [mapM_parseDimension]
  rfl

/-- Evaluation of the loader on a document whose facts section omits
table_name: a KeyError citing table_name. -/
theorem get_cube_config_noTable (fs : String → Option Yaml) (parser : ConfigParser)
    (conf_file : Option String) (s : CubeSpec)
    (hfs : fs (resolveFilePath parser conf_file) = some (mkCubeYamlNoTable s)) :
    get_cube_config fs parser conf_file = Except.error (ConfigError.keyError "table_name") := by
  unfold get_cube_config
  rw [hfs]
  rfl

/-!
Concrete documents used by counterexamples and witnesses.
-/

/-- A filesystem holding a single file. -/
def fsSingle (path : String) (doc : Yaml) : String → Option Yaml :=
  fun q => if q = path then some doc else none

/-- The default config path of scenario documents. -/
def cfgA : String := "/home/user/olapy-data/cubes/cubes-config.yml"

/-- The scenario-A document: cube labster over csv, fact table
stats_line keyed by departement_id against orgunit.id, two measures,
one dimension orgunit with columns type and nom, no renames. -/
def specA : CubeSpec :=
  { xmla_authentication := false, name := "labster", source := "csv",
    table_name := "stats_line", columns_names := ["departement_id"],
    refs := ["orgunit.id"], measures := ["montant", "salaire_brut_mensuel"],
    dimensions := [{ name := "orgunit", displayName := "orgunit",
                     columns := some [⟨"type", none⟩, ⟨"nom", none⟩] }] }

/-- The scenario-A filesystem: the document sits at the default path. -/
def fsA : String → Option Yaml := fsSingle cfgA (mkCubeYaml specA)

/-- A document whose keys lists differ in length: two key-column names
but a single reference. -/
def specC1 : CubeSpec :=
  { xmla_authentication := false, name := "labster", source := "csv",
    table_name := "stats_line", columns_names := ["departement_id", "extra_col"],
    refs := ["orgunit.id"], measures := ["montant"], dimensions := [] }

/-- A document exercising both rename cases: one column with a declared
rename and one without. -/
def specB : CubeSpec :=
  { xmla_authentication := true, name := "labster", source := "csv",
    table_name := "stats_line", columns_names := ["departement_id"],
    refs := ["orgunit.id"], measures := ["montant"],
    dimensions := [{ name := "orgunit", displayName := "Organisation",
                     columns := some [⟨"nom", some "Name"⟩, ⟨"type", none⟩] }] }

/-- A document whose single dimension omits the columns key entirely. -/
def specC10 : CubeSpec :=
  { xmla_authentication := false, name := "labster", source := "csv",
    table_name := "stats_line", columns_names := ["departement_id"],
    refs := ["orgunit.id"], measures := ["montant"],
    dimensions := [{ name := "orgunit", displayName := "Organisation",
                     columns := none }] }

/-!
Claim theorems.
-/

/-- Claim C1, counterexample: the claim says a document whose keys lists
columns_names and refs differ in length makes get_cube_config fail with
a ConfigFormatError and return no descriptor.  On this concrete document
with two key-column names and one reference the loader instead succeeds
and returns a descriptor whose keys mapping silently pairs only the
first name, so the claim as stated is false on the code. -/
theorem mismatched_keys_lists_do_not_fail :
    specC1.columns_names.length ≠ specC1.refs.length ∧
    get_cube_config (fsSingle cfgA (mkCubeYaml specC1)) ⟨cfgA⟩ none =
      Except.ok (evalCubeSpec specC1) ∧
    (evalCubeSpec specC1).facts.map Facts.keys =
      [[(Yaml.str "departement_id", Yaml.str "orgunit.id")]] := by
  refine ⟨by decide, ?_, by rfl⟩
  rfl

/-- Claim C1, amended: for a document whose keys lists differ in length,
get_cube_config does not fail; it returns a descriptor whose keys
mapping pairs the declared key-column names with the declared references
position-for-position up to the shorter list's length, silently dropping
the excess entries. -/
theorem keys_zip_truncates (fs : String → Option Yaml) (parser : ConfigParser)
    (conf_file : Option String) (s : CubeSpec)
    (hfs : fs (resolveFilePath parser conf_file) = some (mkCubeYaml s))
    (hnd : s.columns_names.Nodup) :
    ∃ cube, get_cube_config fs parser conf_file = Except.ok cube ∧
      cube.facts.map Facts.keys =
        [(s.columns_names.map Yaml.str).zip (s.refs.map Yaml.str)] ∧
      ((s.columns_names.map Yaml.str).zip (s.refs.map Yaml.str)).length =
        min s.columns_names.length s.refs.length := by
  refine ⟨evalCubeSpec s, get_cube_config_mk fs parser conf_file s hfs, ?_, ?_⟩
  · have hk : ((s.columns_names.map Yaml.str).zip (s.refs.map Yaml.str)).map Prod.fst =
        (s.columns_names.take s.refs.length).map Yaml.str := by
      rw [map_fst_zip_eq_take, List.length_map, List.map_take]
    have hnd' : (s.columns_names.take s.refs.length).Nodup :=
      (List.take_sublist _ _).nodup hnd
    have hps := pythonDict_eq_self _ _ hk hnd'
    show [(pythonDict ((s.columns_names.map Yaml.str).zip (s.refs.map Yaml.str)))] = _
    rw [hps]
  · rw [List.length_zip, List.length_map, List.length_map]

/-- Claim C1, witness for the amended theorem: on the concrete document
with two key-column names and one reference the loader succeeds with the
single truncated pair. -/
theorem keys_zip_truncates_witness :
    fsSingle cfgA (mkCubeYaml specC1) (resolveFilePath ⟨cfgA⟩ none) =
      some (mkCubeYaml specC1) ∧
    specC1.columns_names.Nodup ∧
    ∃ cube, get_cube_config (fsSingle cfgA (mkCubeYaml specC1)) ⟨cfgA⟩ none =
        Except.ok cube ∧
      cube.facts.map Facts.keys =
        [(specC1.columns_names.map Yaml.str).zip (specC1.refs.map Yaml.str)] ∧
      ((specC1.columns_names.map Yaml.str).zip (specC1.refs.map Yaml.str)).length =
        min specC1.columns_names.length specC1.refs.length :=
  ⟨rfl, by decide,
    keys_zip_truncates (fsSingle cfgA (mkCubeYaml specC1)) ⟨cfgA⟩ none specC1 rfl
      (by decide)⟩

/-- Claim C2: a document omitting a required field fails with a
ConfigFormatError citing the missing field and no descriptor is
returned: omitting the dimensions section cites dimensions, omitting the
top-level name cites name, and omitting the fact table_name cites
table_name. -/
theorem missing_required_field_fails_format (s : CubeSpec)
    (fs1 fs2 fs3 : String → Option Yaml) (p1 p2 p3 : ConfigParser)
    (c1 c2 c3 : Option String)
    (h1 : fs1 (resolveFilePath p1 c1) = some (mkCubeYamlNoDims s))
    (h2 : fs2 (resolveFilePath p2 c2) = some (mkCubeYamlNoName s))
    (h3 : fs3 (resolveFilePath p3 c3) = some (mkCubeYamlNoTable s)) :
    (get_cube_config fs1 p1 c1 = Except.error (ConfigError.keyError "dimensions") ∧
     isConfigFormatError (ConfigError.keyError "dimensions") = true ∧
     errorCitesField (ConfigError.keyError "dimensions") "dimensions" = true) ∧
    (get_cube_config fs2 p2 c2 = Except.error (ConfigError.keyError "name") ∧
     isConfigFormatError (ConfigError.keyError "name") = true ∧
     errorCitesField (ConfigError.keyError "name") "name" = true) ∧
    (get_cube_config fs3 p3 c3 = Except.error (ConfigError.keyError "table_name") ∧
     isConfigFormatError (ConfigError.keyError "table_name") = true ∧
     errorCitesField (ConfigError.keyError "table_name") "table_name" = true) :=
  ⟨⟨get_cube_config_noDims fs1 p1 c1 s h1, rfl, by decide⟩,
   ⟨get_cube_config_noName fs2 p2 c2 s h2, rfl, by decide⟩,
   ⟨get_cube_config_noTable fs3 p3 c3 s h3, rfl, by decide⟩⟩

/-- Claim C2, witness: the scenario-A document stripped of its
dimensions section, of its name, or of its fact table_name fails with
the corresponding citing error. -/
theorem missing_required_field_fails_format_witness :
    (fsSingle cfgA (mkCubeYamlNoDims specA) (resolveFilePath ⟨cfgA⟩ none) =
       some (mkCubeYamlNoDims specA)) ∧
    ((get_cube_config (fsSingle cfgA (mkCubeYamlNoDims specA)) ⟨cfgA⟩ none =
        Except.error (ConfigError.keyError "dimensions") ∧
      isConfigFormatError (ConfigError.keyError "dimensions") = true ∧
      errorCitesField (ConfigError.keyError "dimensions") "dimensions" = true) ∧
     (get_cube_config (fsSingle cfgA (mkCubeYamlNoName specA)) ⟨cfgA⟩ none =
        Except.error (ConfigError.keyError "name") ∧
      isConfigFormatError (ConfigError.keyError "name") = true ∧
      errorCitesField (ConfigError.keyError "name") "name" = true) ∧
     (get_cube_config (fsSingle cfgA (mkCubeYamlNoTable specA)) ⟨cfgA⟩ none =
        Except.error (ConfigError.keyError "table_name") ∧
      isConfigFormatError (ConfigError.keyError "table_name") = true ∧
      errorCitesField (ConfigError.keyError "table_name") "table_name" = true)) :=
  ⟨rfl,
   missing_required_field_fails_format specA
     (fsSingle cfgA (mkCubeYamlNoDims specA))
     (fsSingle cfgA (mkCubeYamlNoName specA))
     (fsSingle cfgA (mkCubeYamlNoTable specA))
     ⟨cfgA⟩ ⟨cfgA⟩ ⟨cfgA⟩ none none none rfl rfl rfl⟩

/-- Claim C3: when the resolved path names no existing file the loader
fails with a ConfigNotFoundError naming that path, and on any failure
whatsoever no descriptor is returned: the operation is all-or-nothing. -/
theorem missing_file_fails_not_found (fs : String → Option Yaml)
    (parser : ConfigParser) (conf_file : Option String)
    (h : fs (resolveFilePath parser conf_file) = none) :
    get_cube_config fs parser conf_file =
      Except.error (ConfigError.notFound (resolveFilePath parser conf_file)) ∧
    isConfigNotFoundError (ConfigError.notFound (resolveFilePath parser conf_file)) = true ∧
    ∀ (fs2 : String → Option Yaml) (p2 : ConfigParser) (c2 : Option String)
      (e : ConfigError), get_cube_config fs2 p2 c2 = Except.error e →
        ∀ c : Cube, ¬ get_cube_config fs2 p2 c2 = Except.ok c := by
  refine ⟨?_, rfl, ?_⟩
  · unfold get_cube_config
    rw [h]
  · intro fs2 p2 c2 e he c hc
    rw [he] at hc
    exact Except.noConfusion hc

/-- Claim C3, witness: an empty filesystem makes the loader fail with
notFound at the resolved path. -/
theorem missing_file_fails_not_found_witness :
    ((fun _ => (none : Option Yaml)) (resolveFilePath ⟨cfgA⟩ none) = none) ∧
    (get_cube_config (fun _ => none) ⟨cfgA⟩ none =
       Except.error (ConfigError.notFound (resolveFilePath ⟨cfgA⟩ none)) ∧
     isConfigNotFoundError (ConfigError.notFound (resolveFilePath ⟨cfgA⟩ none)) = true ∧
     ∀ (fs2 : String → Option Yaml) (p2 : ConfigParser) (c2 : Option String)
       (e : ConfigError), get_cube_config fs2 p2 c2 = Except.error e →
         ∀ c : Cube, ¬ get_cube_config fs2 p2 c2 = Except.ok c) :=
  ⟨rfl, missing_file_fails_not_found (fun _ => none) ⟨cfgA⟩ none rfl⟩

/-- Claim C4: for every dimension of a successfully loaded document
whose declared column names are distinct, the columns mapping enumerates
its entries, in order, exactly at the declared column names. -/
theorem dimension_columns_preserve_declared_order (fs : String → Option Yaml)
    (parser : ConfigParser) (conf_file : Option String) (s : CubeSpec)
    (hfs : fs (resolveFilePath parser conf_file) = some (mkCubeYaml s))
    (hnd : ∀ d ∈ s.dimensions, ((d.columns.getD []).map ColumnSpec.name).Nodup) :
    ∃ cube, get_cube_config fs parser conf_file = Except.ok cube ∧
      cube.dimensions.map (fun dd => dd.columns.map Prod.fst) =
        s.dimensions.map (fun d => (d.columns.getD []).map (fun c => Yaml.str c.name)) := by
  refine ⟨evalCubeSpec s, get_cube_config_mk fs parser conf_file s hfs, ?_⟩
  show (s.dimensions.map evalDimSpec).map (fun dd => dd.columns.map Prod.fst) = _
  rw [List.map_map]
  refine List.map_congr_left ?_
  intro d hd
  have hnd' := hnd d hd
  cases hcols : d.columns with
  | none => simp [evalDimSpec, hcols]
  | some cs =>
    rw [hcols] at hnd'
    simp only [Option.getD_some] at hnd'
    have hk : (cs.map evalColumn).map Prod.fst = (cs.map ColumnSpec.name).map Yaml.str := by
      rw [List.map_map, List.map_map]
      rfl
    have hps := pythonDict_eq_self (cs.map evalColumn) (cs.map ColumnSpec.name) hk hnd'
    simp only [Function.comp, evalDimSpec, hcols, hps, Option.getD_some]
    rw [List.map_map]
    rfl

/-- Claim C4, witness: on the scenario-A document the single dimension's
columns mapping lists type then nom, in declaration order. -/
theorem dimension_columns_preserve_declared_order_witness :
    (fsA (resolveFilePath ⟨cfgA⟩ none) = some (mkCubeYaml specA)) ∧
    (∀ d ∈ specA.dimensions, ((d.columns.getD []).map ColumnSpec.name).Nodup) ∧
    ∃ cube, get_cube_config fsA ⟨cfgA⟩ none = Except.ok cube ∧
      cube.dimensions.map (fun dd => dd.columns.map Prod.fst) =
        specA.dimensions.map (fun d => (d.columns.getD []).map (fun c => Yaml.str c.name)) :=
  ⟨rfl, by decide,
    dimension_columns_preserve_declared_order fsA ⟨cfgA⟩ none specA rfl (by decide)⟩

/-- Claim C5: for every column of every dimension of a successfully
loaded document with distinct column names, the column's display name in
the columns mapping is its declared column_new_name when present and the
column's own name otherwise. -/
theorem column_display_name_default_rename (fs : String → Option Yaml)
    (parser : ConfigParser) (conf_file : Option String) (s : CubeSpec)
    (hfs : fs (resolveFilePath parser conf_file) = some (mkCubeYaml s))
    (hnd : ∀ d ∈ s.dimensions, ((d.columns.getD []).map ColumnSpec.name).Nodup) :
    ∃ cube, get_cube_config fs parser conf_file = Except.ok cube ∧
      cube.dimensions.map Dimension.columns =
        s.dimensions.map (fun d => (d.columns.getD []).map (fun c =>
          (Yaml.str c.name, Yaml.str (c.column_new_name.getD c.name)))) := by
  refine ⟨evalCubeSpec s, get_cube_config_mk fs parser conf_file s hfs, ?_⟩
  show (s.dimensions.map evalDimSpec).map Dimension.columns = _
  rw [List.map_map]
  refine List.map_congr_left ?_
  intro d hd
  have hnd' := hnd d hd
  cases hcols : d.columns with
  | none => simp [evalDimSpec, hcols]
  | some cs =>
    rw [hcols] at hnd'
    simp only [Option.getD_some] at hnd'
    have hk : (cs.map evalColumn).map Prod.fst = (cs.map ColumnSpec.name).map Yaml.str := by
      rw [List.map_map, List.map_map]
      rfl
    have hps := pythonDict_eq_self (cs.map evalColumn) (cs.map ColumnSpec.name) hk hnd'
    simp only [Function.comp, evalDimSpec, hcols, hps, Option.getD_some]
    rfl

/-- Claim C5, witness: on a document declaring one column nom renamed to
Name and one column type without a rename, the mapping entries are nom
to Name and type to type. -/
theorem column_display_name_default_rename_witness :
    (fsSingle cfgA (mkCubeYaml specB) (resolveFilePath ⟨cfgA⟩ none) =
       some (mkCubeYaml specB)) ∧
    (∀ d ∈ specB.dimensions, ((d.columns.getD []).map ColumnSpec.name).Nodup) ∧
    ∃ cube, get_cube_config (fsSingle cfgA (mkCubeYaml specB)) ⟨cfgA⟩ none =
        Except.ok cube ∧
      cube.dimensions.map Dimension.columns =
        specB.dimensions.map (fun d => (d.columns.getD []).map (fun c =>
          (Yaml.str c.name, Yaml.str (c.column_new_name.getD c.name)))) :=
  ⟨rfl, by decide,
    column_display_name_default_rename (fsSingle cfgA (mkCubeYaml specB)) ⟨cfgA⟩ none
      specB rfl (by decide)⟩

/-- Claim C6: on a successfully loaded document with equal-length,
duplicate-free keys lists, the facts keys mapping pairs the declared
key-column names with the declared references position-for-position;
and on the concrete scenario-A document the loader returns a descriptor
whose facts keys mapping is departement_id to orgunit.id and whose
dimension columns mapping is type to type then nom to nom, in order. -/
theorem facts_keys_pairing_scenario_a (fs : String → Option Yaml)
    (parser : ConfigParser) (conf_file : Option String) (s : CubeSpec)
    (hfs : fs (resolveFilePath parser conf_file) = some (mkCubeYaml s))
    (hlen : s.columns_names.length = s.refs.length)
    (hnd : s.columns_names.Nodup) :
    (∃ cube, get_cube_config fs parser conf_file = Except.ok cube ∧
       cube.facts.map Facts.keys =
         [(s.columns_names.map Yaml.str).zip (s.refs.map Yaml.str)]) ∧
    (get_cube_config fsA ⟨cfgA⟩ none = Except.ok (evalCubeSpec specA) ∧
     (evalCubeSpec specA).facts.map Facts.keys =
       [[(Yaml.str "departement_id", Yaml.str "orgunit.id")]] ∧
     (evalCubeSpec specA).dimensions.map Dimension.columns =
       [[(Yaml.str "type", Yaml.str "type"), (Yaml.str "nom", Yaml.str "nom")]]) := by
  refine ⟨⟨evalCubeSpec s, get_cube_config_mk fs parser conf_file s hfs, ?_⟩, by rfl, by rfl, by rfl⟩
  have hk : ((s.columns_names.map Yaml.str).zip (s.refs.map Yaml.str)).map Prod.fst =
      s.columns_names.map Yaml.str :=
    List.map_fst_zip _ _ (by rw [List.length_map, List.length_map, hlen])
  have hnd2 : (s.columns_names.map Yaml.str).Nodup :=
    hnd.map (fun a b hab => by injection hab)
  have hps := pythonDict_pairwise ((s.columns_names.map Yaml.str).zip (s.refs.map Yaml.str))
    (by
      have h1 : List.Pairwise (fun a b : Yaml => yamlKeyEq a b = false)
          (s.columns_names.map Yaml.str) := by
        rw [List.pairwise_map]
        refine hnd.imp ?_
        intro a b hab
        simp [yamlKeyEq, hab]
      rw [← hk, List.pairwise_map] at h1
      exact h1)
  show [pythonDict ((s.columns_names.map Yaml.str).zip (s.refs.map Yaml.str))] = _
  rw [hps]

/-- Claim C6, witness: the scenario-A document itself discharges the
general statement's hypotheses. -/
theorem facts_keys_pairing_scenario_a_witness :
    (fsA (resolveFilePath ⟨cfgA⟩ none) = some (mkCubeYaml specA)) ∧
    specA.columns_names.length = specA.refs.length ∧
    specA.columns_names.Nodup ∧
    ((∃ cube, get_cube_config fsA ⟨cfgA⟩ none = Except.ok cube ∧
        cube.facts.map Facts.keys =
          [(specA.columns_names.map Yaml.str).zip (specA.refs.map Yaml.str)]) ∧
     (get_cube_config fsA ⟨cfgA⟩ none = Except.ok (evalCubeSpec specA) ∧
      (evalCubeSpec specA).facts.map Facts.keys =
        [[(Yaml.str "departement_id", Yaml.str "orgunit.id")]] ∧
      (evalCubeSpec specA).dimensions.map Dimension.columns =
        [[(Yaml.str "type", Yaml.str "type"), (Yaml.str "nom", Yaml.str "nom")]])) :=
  ⟨rfl, by decide, by decide,
    facts_keys_pairing_scenario_a fsA ⟨cfgA⟩ none specA rfl (by decide) (by decide)⟩

/-- Claim C7: the resolved path is the caller's path verbatim when one
is supplied; otherwise it is the environment override value when set,
else the home directory, with the fixed relative path olapy-data,
cubes, cubes-config.yml joined on. -/
theorem resolved_path_contract (p v home : String) (hp : p ≠ "") :
    (mkConfigParser (some p) (some v) home).cube_config_file = p ∧
    (mkConfigParser (some p) none home).cube_config_file = p ∧
    (mkConfigParser none (some v) home).cube_config_file = osPathJoin v olapyDataRel ∧
    (mkConfigParser none none home).cube_config_file = osPathJoin home olapyDataRel ∧
    osPathJoin "/home/user" olapyDataRel = "/home/user/olapy-data/cubes/cubes-config.yml" := by
  refine ⟨?_, ?_, rfl, rfl, by rfl⟩ <;> simp [mkConfigParser, hp]

/-- Claim C7, witness: concrete explicit path, override value and home
directory. -/
theorem resolved_path_contract_witness :
    ("/tmp/my.yml" : String) ≠ "" ∧
    ((mkConfigParser (some "/tmp/my.yml") (some "/env/base") "/home/u").cube_config_file =
       "/tmp/my.yml" ∧
     (mkConfigParser (some "/tmp/my.yml") none "/home/u").cube_config_file = "/tmp/my.yml" ∧
     (mkConfigParser none (some "/env/base") "/home/u").cube_config_file =
       osPathJoin "/env/base" olapyDataRel ∧
     (mkConfigParser none none "/home/u").cube_config_file =
       osPathJoin "/home/u" olapyDataRel ∧
     osPathJoin "/home/user" olapyDataRel = "/home/user/olapy-data/cubes/cubes-config.yml") :=
  ⟨by decide, resolved_path_contract "/tmp/my.yml" "/env/base" "/home/u" (by decide)⟩

/-- Claim C8: config_file_exists is exactly the filesystem check that a
file is present at the stored path: false on an empty filesystem, never
an error, and with no caching, true on any filesystem to which a
document was just written at that path. -/
theorem config_file_exists_semantics (fs : String → Option Yaml)
    (parser : ConfigParser) (doc : Yaml) :
    config_file_exists fs parser = (fs parser.cube_config_file).isSome ∧
    config_file_exists (fun _ => none) parser = false ∧
    config_file_exists (fsWrite fs parser.cube_config_file doc) parser = true := by
  refine ⟨rfl, rfl, ?_⟩
  simp [config_file_exists, fsWrite]

/-- Claim C9: every successful load returns a descriptor whose facts
sequence has exactly one element. -/
theorem facts_descriptor_unique (fs : String → Option Yaml) (parser : ConfigParser)
    (conf_file : Option String) (cube : Cube)
    (h : get_cube_config fs parser conf_file = Except.ok cube) :
    cube.facts.length = 1 := by
  unfold get_cube_config at h
  cases hfs : fs (resolveFilePath parser conf_file) with
  | none => rw [hfs] at h; exact Except.noConfusion h
  | some config =>
    rw [hfs] at h
    iterate 18 (obtain ⟨_, _, h⟩ := bind_ok_inv h)
    have hc := Except.ok.inj h
    subst hc
    rfl

/-- Claim C9, witness: the scenario-A load succeeds and its descriptor
has a single facts entry. -/
theorem facts_descriptor_unique_witness :
    get_cube_config fsA ⟨cfgA⟩ none = Except.ok (evalCubeSpec specA) ∧
    (evalCubeSpec specA).facts.length = 1 :=
  ⟨rfl, facts_descriptor_unique fsA ⟨cfgA⟩ none (evalCubeSpec specA) rfl⟩

/-- Claim C10: a document whose dimension entry lacks the columns key
loads without failing, and the resulting descriptor for such a dimension
has an empty columns mapping. -/
theorem missing_columns_key_gives_empty_mapping (fs : String → Option Yaml)
    (parser : ConfigParser) (conf_file : Option String) (s : CubeSpec)
    (hfs : fs (resolveFilePath parser conf_file) = some (mkCubeYaml s)) :
    get_cube_config fs parser conf_file = Except.ok (evalCubeSpec s) ∧
    (evalCubeSpec s).dimensions = s.dimensions.map evalDimSpec ∧
    ∀ d : DimSpec, d.columns = none → (evalDimSpec d).columns = [] := by
  refine ⟨get_cube_config_mk fs parser conf_file s hfs, rfl, ?_⟩
  intro d hd
  simp [evalDimSpec, hd]

/-- Claim C10, witness: the concrete document whose single dimension
omits the columns key loads, and that dimension's columns mapping is
empty. -/
theorem missing_columns_key_gives_empty_mapping_witness :
    (fsSingle cfgA (mkCubeYaml specC10) (resolveFilePath ⟨cfgA⟩ none) =
       some (mkCubeYaml specC10)) ∧
    (get_cube_config (fsSingle cfgA (mkCubeYaml specC10)) ⟨cfgA⟩ none =
       Except.ok (evalCubeSpec specC10) ∧
     (evalCubeSpec specC10).dimensions = specC10.dimensions.map evalDimSpec ∧
     ∀ d : DimSpec, d.columns = none → (evalDimSpec d).columns = []) ∧
    (evalCubeSpec specC10).dimensions.map Dimension.columns = [[]] :=
  ⟨rfl,
   missing_columns_key_gives_empty_mapping (fsSingle cfgA (mkCubeYaml specC10))
     ⟨cfgA⟩ none specC10 rfl,
   rfl⟩

end Olapy
